import Mathlib

/-!
Verification development for the douyinLive session/connection engine
(`douyin.go`, `douyin_live.go`).

The Go code is shallowly embedded: pure control flow is translated to Lean
functions; calls into external libraries (protobuf encode/decode, gzip
decompression, the WebSocket dialer and its read/write results) are oracles
passed in as explicit function arguments, so every environment behaviour is
quantified over; side effects (log lines, frame writes, subscriber dispatch,
transport closes, dial attempts, sleeps) are recorded as an explicit action
trace.  Bytes are lists of naturals.
-/

namespace DouyinLive

/-- Go `[]byte`. -/
abbrev Bytes := List Nat

/-- Go `[]byte(s)` for a string argument; an injective rendering of the string
as bytes (codepoints), used only to compare payloads for equality. -/
def strBytes (s : String) : Bytes := s.toList.map Char.toNat

/-- Embedding of `new_douyin.Webcast_Im_PushFrame`: `LogID uint64`, `PayloadType string`,
`Payload []byte`, `Headers` (list of key/value header flags). -/
structure PushFrame where
  logID : Nat
  payloadType : String
  payload : Bytes
  headers : List (String × String)
deriving Repr, DecidableEq

/-- Embedding of `new_douyin.Webcast_Im_Message`: `Method string`, `Payload []byte`. -/
structure Message where
  method : String
  payload : Bytes
deriving Repr, DecidableEq

/-- Embedding of `new_douyin.Webcast_Im_Response`: `NeedAck bool`, `InternalExt string`,
`Messages []*Message`. -/
structure Response where
  needAck : Bool
  internalExt : String
  messages : List Message
deriving Repr, DecidableEq

/-- Embedding of `douyin.ControlMessage`: only the `Status` field is inspected. -/
structure ControlMessage where
  status : Nat
deriving Repr, DecidableEq

/-- An abstract `*websocket.Conn` handle. -/
structure Conn where
  id : Nat
deriving Repr, DecidableEq

/-- Go error values as they occur in this code: `*websocket.CloseError`
(with its close code and text), any other error, `retry.Unrecoverable`
wrapping (a value of the private struct `unrecoverableError`), and
`fmt.Errorf` with the wrap verb. -/
inductive GoErr where
  | closeErr (code : Nat) (text : String)
  | otherErr (msg : String)
  | unrecoverable (e : GoErr)
  | wrapped (msg : String) (e : GoErr)
deriving Repr, DecidableEq

/-- Gorilla `websocket.IsCloseError(err, codes...)`: a direct type assertion
`err.(*CloseError)` — it does NOT unwrap `fmt.Errorf` wrappers or the
`retry.Unrecoverable` wrapper — then membership of the code. -/
def isCloseError (err : GoErr) (codes : List Nat) : Bool :=
  match err with
  | .closeErr c _ => codes.contains c
  | _ => false

/-- Gorilla `websocket.IsUnexpectedCloseError(err, expected...)`: a direct type
assertion `err.(*CloseError)`; returns `false` for any non-CloseError value,
and for a CloseError returns `true` exactly when the code is not expected. -/
def isUnexpectedCloseError (err : GoErr) (expectedCodes : List Nat) : Bool :=
  match err with
  | .closeErr c _ => !(expectedCodes.contains c)
  | _ => false

/-- Go `errors.As(err, &closeErr)`: walks the `Unwrap` chain (`fmt.Errorf`
wrappers unwrap; retry-go v2 `unrecoverableError` has no `Unwrap` method). -/
def asCloseError : GoErr → Option (Nat × String)
  | .closeErr c t => some (c, t)
  | .wrapped _ e => asCloseError e
  | _ => none

/-- Mutable session state of `DouyinLive` relevant to the claims:
`isLiving`, `manualClose`, the transport handle `conn`. -/
structure DL where
  isLiving : Bool
  manualClose : Bool
  conn : Option Conn
deriving Repr, DecidableEq

/-- Observable side effects, in program order. -/
inductive Action where
  | log (msg : String)
  | ackWrite (frame : PushFrame)
  | dispatch (msg : Message)
  | closeControl (c : Conn) (code : Nat)
  | connClose (c : Conn)
  | dialAttempt (n : Nat)
  | sleep (ms : Nat)
deriving Repr, DecidableEq

/-- Oracles for the external library calls made on the frame pipeline. -/
structure Env where
  /-- `proto.Unmarshal(data, &pushFrame)` -/
  decodePushFrame : Bytes → Option PushFrame
  /-- `dl.decompressGzip(payload)` -/
  decompress : Bytes → Option Bytes
  /-- `proto.Unmarshal(uncompressed, &response)` -/
  decodeResponse : Bytes → Option Response
  /-- `proto.Unmarshal(msg.Payload, &controlMsg)` -/
  decodeControl : Bytes → Option ControlMessage
  /-- `proto.Marshal(ackFrame)` -/
  marshal : PushFrame → Option Bytes
  /-- result of `dl.conn.WriteMessage` for the ack frame -/
  writeErr : Option GoErr

/-- Modelled from the spec: `utils.HasGzipEncoding(pushFrame.Headers)` (the
`utils` package is not under `src/`); per the spec the header flags map
"carries [the] compression indicator", so the check is that some header flag
indicates gzip. -/
def hasGzipEncoding (headers : List (String × String)) : Bool :=
  headers.any fun p => p.2 = "gzip"

/-- The ack frame literal built in `sendAck`:
`&PushFrame{LogID: logID, PayloadType: "ack", Payload: []byte(internalExt)}`. -/
def mkAckFrame (logID : Nat) (internalExt : String) : PushFrame :=
  { logID := logID, payloadType := "ack",
    payload := strBytes internalExt, headers := [] }

/-- Embedding of `sendAck(logID, internalExt)`: marshal the ack frame (failure logged and
nothing sent); if the connection handle is non-nil, write the frame (a write
error is logged).  No session state is modified. -/
def sendAck (env : Env) (dl : DL) (logID : Nat) (internalExt : String) :
    DL × List Action :=
  let ackFrame := mkAckFrame logID internalExt
  match env.marshal ackFrame with
  | none => (dl, [.log "心跳包序列化失败"])
  | some _ =>
    match dl.conn with
    | none => (dl, [])
    | some _ =>
      match env.writeErr with
      | some _ => (dl, [.ackWrite ackFrame, .log "发送心跳包失败"])
      | none => (dl, [.ackWrite ackFrame])

/-- Embedding of `handleSingleMessage(msg)`: always `emitEvent(msg)` first; for method
`"WebcastControlMessage"` decode the control message (failure logged), and on
status 3 log and `setLiveStatus(false)`. -/
def handleSingleMessage (env : Env) (dl : DL) (msg : Message) :
    DL × List Action :=
  if msg.method = "WebcastControlMessage" then
    match env.decodeControl msg.payload with
    | none => (dl, [.dispatch msg, .log "解析控制消息失败"])
    | some cm =>
      if cm.status = 3 then
        ({ dl with isLiving := false }, [.dispatch msg, .log "直播间已关闭"])
      else (dl, [.dispatch msg])
  else (dl, [.dispatch msg])

/-- The `for _, msg := range response.Messages` loop of `handleGzipMessage`:
every message of the batch is handled, with no early exit. -/
def foldMessages (env : Env) (dl : DL) : List Message → DL × List Action
  | [] => (dl, [])
  | m :: ms =>
    let r := handleSingleMessage env dl m
    let rest := foldMessages env r.1 ms
    (rest.1, r.2 ++ rest.2)

/-- Embedding of `handleGzipMessage(pushFrame)`: decompress the payload (failure logged,
frame dropped); decode the `Response` (failure logged, frame dropped); if
`NeedAck`, `sendAck(LogID, InternalExt)`; then handle every message of the
batch. -/
def handleGzipMessage (env : Env) (dl : DL) (pushFrame : PushFrame) :
    DL × List Action :=
  match env.decompress pushFrame.payload with
  | none => (dl, [.log "GZIP解压失败"])
  | some uncompressed =>
    match env.decodeResponse uncompressed with
    | none => (dl, [.log "解析Response失败"])
    | some response =>
      let ack :=
        if response.needAck then
          sendAck env dl pushFrame.logID response.internalExt
        else (dl, [])
      let msgs := foldMessages env ack.1 response.messages
      (msgs.1, ack.2 ++ msgs.2)

/-- Constant `defaultMaxRetries` (douyin.go). -/
def defaultMaxRetries : Nat := 5

/-- Result of one `websocket.DefaultDialer.Dial` inside the retry loop. -/
inductive DialResult where
  | ok (c : Conn)
  | fail (e : GoErr)
deriving Repr, DecidableEq

/-- The error handling inside `retryable`: a dial error whose value is a
`*CloseError` with one of the listed codes (1006, 1013, 1012, 1001, 1005,
1008, 1007) is returned wrapped in `retry.Unrecoverable`; any other error is
returned as is. -/
def wrapRetryable (e : GoErr) : GoErr :=
  if isCloseError e [1006, 1013, 1012, 1001, 1005, 1008, 1007] then
    .unrecoverable e
  else e

/-- The `retry.RetryIf` predicate passed to `retry.Do`: retry unless
`websocket.IsCloseError(err, ClosePolicyViolation, CloseInvalidFramePayloadData)`.
Note it receives the value returned by `retryable` (possibly the
`retry.Unrecoverable` wrapper) and `IsCloseError` is a direct type assertion. -/
def retryIfGo (e : GoErr) : Bool := !(isCloseError e [1008, 1007])

/-- avast/retry-go v2 `retry.Do` specialised to the options used in
`reconnect` (`Attempts`, `BackOffDelay`, the custom `RetryIf`, an `OnRetry`
log): call `retryable`; on success stop; on failure stop when `RetryIf` is
false or this was the last attempt, otherwise log, sleep the backoff delay
(base 100ms doubled per attempt) and try again.  `n` is the 0-based attempt
index; fuel is `attempts - n`.  Returns the dialed connection (on success)
and the action trace. -/
def retryDoGo (dials : Nat → DialResult) (attempts : Nat) :
    Nat → Nat → Option Conn × List Action
  | 0, _ => (none, [])
  | fuel + 1, n =>
    let act := Action.dialAttempt n
    match dials n with
    | .ok c => (some c, [act])
    | .fail e =>
      let err := wrapRetryable e
      if !retryIfGo err then (none, [act])
      else if n = attempts - 1 then (none, [act, .log "重试连接"])
      else
        let r := retryDoGo dials attempts fuel (n + 1)
        (r.1, act :: .log "重试连接" :: .sleep (100 * 2 ^ n) :: r.2)

/-- Call `retry.Do(retryable, ...)` as made from `reconnect`. -/
def retryDo (dials : Nat → DialResult) (attempts : Nat) :
    Option Conn × List Action :=
  retryDoGo dials attempts attempts 0

/-- Embedding of `reconnect(attempts)`: abort immediately when `manualClose` is set (this
entry check is the only read of the flag in the whole cycle); otherwise send
a best-effort going-away close frame on the stale handle and clear it, then
run the retry loop; on success store the new handle and return true, on
final failure log and return false. -/
def reconnect (dials : Nat → DialResult) (attempts : Nat) (dl : DL) :
    DL × List Action × Bool :=
  if dl.manualClose then
    (dl, [.log "连接被手动关闭，不进行重连"], false)
  else
    let closeActs : List Action :=
      match dl.conn with
      | some c => [Action.closeControl c 1001, Action.connClose c]
      | none => []
    let r := retryDo dials attempts
    match r.1 with
    | some c =>
      ({ dl with conn := some c },
       closeActs ++ r.2 ++ [.log "连接成功，未触发重试"], true)
    | none =>
      ({ dl with conn := none },
       closeActs ++ r.2 ++ [.log "连接最终失败"], false)

/-- The function `reconnect` run against a `manualClose` trace: `σ t` is the value the
shared `manualClose` flag holds at the t-th opportunity the cycle has to
observe it (t = 0: the entry check, the only point at which the Go code
reads the flag; t = n + 1: just before the n-th dial attempt of the retry
loop, where the Go code performs no read).  Because the code reads the flag
exactly once, at entry, the result depends only on `σ 0`. -/
def reconnectTraced (σ : Nat → Bool) (dials : Nat → DialResult)
    (attempts : Nat) (dl : DL) : DL × List Action × Bool :=
  reconnect dials attempts { dl with manualClose := σ 0 }

/-- Embedding of `handleReadError(err)`: returns false (stop the read loop) or true
(continue).  Order of checks: `manualClose`; then
`!IsUnexpectedCloseError(err, CloseNormalClosure)` (true for a CloseError
with code 1000 and for every non-CloseError value) → normal close, stop; then
log, `errors.As` to a CloseError and switch on 1006 (reconnect) and 1013
(sleep 5s then reconnect); all remaining errors fall through to the network
error branch, which also reconnects. -/
def handleReadError (dials : Nat → DialResult) (dl : DL) (err : GoErr) :
    DL × List Action × Bool :=
  if dl.manualClose then
    (dl, [.log "连接被手动关闭，不进行重连"], false)
  else if !(isUnexpectedCloseError err [1000]) then
    (dl, [.log "正常关闭"], false)
  else
    let pre := [Action.log "检测到非正常关闭，尝试重连"]
    let r := reconnect dials defaultMaxRetries dl
    match asCloseError err with
    | some (code, _) =>
      let pre2 := pre ++ [Action.log "WebSocket关闭错误"]
      if code = 1006 then
        (r.1, pre2 ++ [.log "检测到异常关闭，尝试重连"] ++ r.2.1, r.2.2)
      else if code = 1013 then
        (r.1, pre2 ++ [.log "服务端要求稍后重试", .sleep 5000] ++ r.2.1, r.2.2)
      else
        (r.1, pre2 ++ [.log "网络错误"] ++ r.2.1, r.2.2)
    | none =>
      (r.1, pre ++ [.log "网络错误"] ++ r.2.1, r.2.2)

/-- One read of the loop: either a read error or a frame with its websocket
message type and raw bytes. -/
inductive ReadEvent where
  | readErr (e : GoErr)
  | frame (messageType : Nat) (data : Bytes)
deriving Repr

/-- Constant `websocket.BinaryMessage`. -/
def binaryMessage : Nat := 2

/-- One iteration of the `processMessages` loop body (after the liveness
check at the top and the read itself); the Bool is true when the loop
continues and false on break. -/
def processStep (env : Env) (dials : Nat → DialResult) (dl : DL) :
    ReadEvent → DL × List Action × Bool
  | .readErr e =>
    let r := handleReadError dials dl e
    (r.1, .log "读取消息失败" :: r.2.1, r.2.2)
  | .frame mt data =>
    if mt = binaryMessage ∧ data ≠ [] then
      match env.decodePushFrame data with
      | none => (dl, [.log "解析PushFrame失败"], true)
      | some pf =>
        if pf.payloadType = "msg" ∧ hasGzipEncoding pf.headers = true then
          let r := handleGzipMessage env dl pf
          (r.1, r.2, true)
        else (dl, [], true)
    else (dl, [], true)

/-- Embedding of `processMessages()`: `for dl.isLiving` — check liveness, read the next
event, run the body; stop on break or when liveness is false at the top of
the loop. -/
def processMessages (env : Env) (dials : Nat → DialResult) (dl : DL) :
    List ReadEvent → DL × List Action
  | [] => (dl, [])
  | ev :: rest =>
    if dl.isLiving then
      let r := processStep env dials dl ev
      if r.2.2 then
        let r2 := processMessages env dials r.1 rest
        (r2.1, r.2.1 ++ r2.2)
      else (r.1, r.2.1)
    else (dl, [])

/-- Embedding of `Close()`: set liveness false and `manualClose` true; if the handle is
already nil, log and return; otherwise capture and clear the handle, then
(asynchronously, with a bounded wait) send the normal-closure close frame and
close the transport. -/
def Close (dl : DL) : DL × List Action :=
  let dl1 : DL := { dl with isLiving := false, manualClose := true }
  match dl1.conn with
  | none => (dl1, [.log "连接已关闭或未初始化"])
  | some c =>
    ({ dl1 with conn := none },
     [.closeControl c 1000, .connClose c, .log "连接已成功关闭"])

/-- Outcome of `dialer.Dial(url, headers)` in `startWebSocket`: on success a
connection and the handshake status code; on failure an error together with
the response (a status code) when an HTTP-like response was received, or
`none` when no response was received (e.g. the TCP dial itself failed), in
which case `resp` is nil. -/
inductive DialOutcome where
  | ok (c : Conn) (statusCode : Nat)
  | fail (e : GoErr) (respStatus : Option Nat)
deriving Repr, DecidableEq

/-- How a call returned: normally with no error, normally with an error
value, or by runtime panic. -/
inductive RunResult where
  | ok
  | err (e : GoErr)
  | panicked
deriving Repr, DecidableEq

/-- Embedding of `startWebSocket()`: dial; on failure build the wrapped error
`fmt.Errorf("连接失败 (状态码: %d): %w", resp.StatusCode, err)` — note the
unconditional `resp.StatusCode` dereference: when no response was received
`resp` is nil and the access panics; on success log and store the handle. -/
def startWebSocket (outcome : DialOutcome) (dl : DL) :
    DL × List Action × RunResult :=
  match outcome with
  | .ok c _ => ({ dl with conn := some c }, [.log "直播间连接成功"], .ok)
  | .fail e (some code) =>
    (dl, [], .err (.wrapped ("连接失败, 状态码 " ++ toString code) e))
  | .fail _ none => (dl, [], .panicked)

/-- Embedding of `cleanup()` (deferred by `Start`/`Start2`): close the handle if present. -/
def cleanup (dl : DL) : List Action :=
  match dl.conn with
  | some c => [Action.connClose c]
  | none => []

/-- Embedding of `Start2()`: `initialize()` then `startWebSocket()` then
`processMessages()`, with `cleanup()` deferred; the only `return err` sites
are the initialize failure and the dial failure, and after the read loop it
returns nil. -/
def Start2 (initErr : Option GoErr) (outcome : DialOutcome) (env : Env)
    (dials : Nat → DialResult) (dl : DL) (events : List ReadEvent) :
    DL × List Action × RunResult :=
  match initErr with
  | some e => (dl, [.log "初始化失败"] ++ cleanup dl, .err e)
  | none =>
    let w := startWebSocket outcome dl
    match w.2.2 with
    | .panicked => (w.1, w.2.1 ++ cleanup w.1, .panicked)
    | .err e => (w.1, w.2.1 ++ [.log "WebSocket连接失败"] ++ cleanup w.1, .err e)
    | .ok =>
      let r := processMessages env dials w.1 events
      (r.1, w.2.1 ++ r.2 ++ cleanup r.1, .ok)

/-- Embedding of `Start()`: `IsLive`, `fetchTTWID`, `fetchRoomInfo`, `initialize`,
`startWebSocket`, then the read loop, with `cleanup()` deferred.  The Go
function has no return value: every failure is logged and the function just
returns, so the outcome is never `RunResult.err` (the `panicked` outcome is
the propagated `startWebSocket` nil-response panic).  The discovery steps
(`IsLive`, `fetchTTWID`, `fetchRoomInfo`, `initialize`) are external
collaborators, given as oracle outcomes; `liveCheck` true means `IsLive` set
the liveness flag to true and returned it. -/
def Start (liveCheck : Bool) (ttwidErr roomInfoErr initErr : Option GoErr)
    (outcome : DialOutcome) (env : Env) (dials : Nat → DialResult) (dl : DL)
    (events : List ReadEvent) : DL × List Action × RunResult :=
  if !liveCheck then (dl, [.log "直播间未开播或连接失败"] ++ cleanup dl, .ok)
  else
    let dl0 : DL := { dl with isLiving := true }
    match ttwidErr with
    | some _ => (dl0, [.log "初始化获取ttwid失败"] ++ cleanup dl0, .ok)
    | none =>
      match roomInfoErr with
      | some _ => (dl0, [.log "初始化获取rome_info失败"] ++ cleanup dl0, .ok)
      | none =>
        match initErr with
        | some _ => (dl0, [.log "初始化失败"] ++ cleanup dl0, .ok)
        | none =>
          let w := startWebSocket outcome dl0
          match w.2.2 with
          | .panicked => (w.1, w.2.1 ++ cleanup w.1, .panicked)
          | .err _ => (w.1, w.2.1 ++ [.log "WebSocket连接失败"] ++ cleanup w.1, .ok)
          | .ok =>
            let r := processMessages env dials w.1 events
            (r.1, w.2.1 ++ r.2 ++ cleanup r.1, .ok)

/-- Recognise an ack frame write in a trace. -/
def isAckWrite : Action → Bool
  | .ackWrite _ => true
  | _ => false

/-- Recognise a subscriber dispatch in a trace. -/
def isDispatchAct : Action → Bool
  | .dispatch _ => true
  | _ => false

/-- Recognise a dial attempt in a trace. -/
def isDialAct : Action → Bool
  | .dialAttempt _ => true
  | _ => false

/-- Recognise a log line in a trace. -/
def isLogAct : Action → Bool
  | .log _ => true
  | _ => false

/-- The ways the frame pipeline of one received frame can fail to decode:
the outer `PushFrame` decode fails, or (for a routed gzip frame) the gzip
decompression fails, or the inner `Response` decode fails. -/
def decodeFailure (env : Env) (data : Bytes) : Prop :=
  env.decodePushFrame data = none ∨
  ∃ pf, env.decodePushFrame data = some pf ∧ pf.payloadType = "msg" ∧
    hasGzipEncoding pf.headers = true ∧
    (env.decompress pf.payload = none ∨
     ∃ u, env.decompress pf.payload = some u ∧ env.decodeResponse u = none)

/-- Concrete oracle environment whose decoders all fail. -/
def envFailAll : Env :=
  { decodePushFrame := fun _ => none,
    decompress := fun _ => none,
    decodeResponse := fun _ => none,
    decodeControl := fun _ => none,
    marshal := fun _ => none,
    writeErr := none }

/-- Concrete binary push frame flagged as a compressed message frame. -/
def pfMsg : PushFrame :=
  { logID := 42, payloadType := "msg", payload := [3],
    headers := [("compress_type", "gzip")] }

/-- Concrete response requesting an ack and carrying one chat message. -/
def respAck : Response :=
  { needAck := true, internalExt := "XYZ",
    messages := [{ method := "WebcastChatMessage", payload := [] }] }

/-- Concrete oracle environment delivering `respAck` with a failing write. -/
def envAck : Env :=
  { decodePushFrame := fun _ => some pfMsg,
    decompress := fun _ => some [9],
    decodeResponse := fun _ => some respAck,
    decodeControl := fun _ => none,
    marshal := fun _ => some [1],
    writeErr := some (.otherErr "write refused") }

/-- Concrete control message whose payload decodes to status 3. -/
def ctlMsg : Message := { method := "WebcastControlMessage", payload := [5] }

/-- Concrete response carrying the room-closed control message. -/
def respCtl : Response :=
  { needAck := false, internalExt := "", messages := [ctlMsg] }

/-- Concrete oracle environment delivering `respCtl`. -/
def envCtl : Env :=
  { decodePushFrame := fun _ => some pfMsg,
    decompress := fun _ => some [9],
    decodeResponse := fun _ => some respCtl,
    decodeControl := fun _ => some { status := 3 },
    marshal := fun _ => none,
    writeErr := none }

/-- Concrete dial oracle that always fails with a plain network error. -/
def dialsFail : Nat → DialResult := fun _ => .fail (.otherErr "connection refused")

/-- Concrete live session holding a connection. -/
def dlLive : DL := { isLiving := true, manualClose := false, conn := some ⟨1⟩ }

/-- Concrete manually-closed session. -/
def dlClosed : DL := { isLiving := false, manualClose := true, conn := none }

/-! ### Helper lemmas -/

theorem sendAck_fst (env : Env) (dl : DL) (l : Nat) (s : String) :
    (sendAck env dl l s).1 = dl := by
  cases hm : env.marshal (mkAckFrame l s) with
  | none => simp [sendAck, hm]
  | some d =>
    cases hc : dl.conn with
    | none => simp [sendAck, hm, hc]
    | some c => cases hw : env.writeErr <;> simp [sendAck, hm, hc, hw]

theorem sendAck_filter_ack (env : Env) (dl : DL) (l : Nat) (s : String)
    (c : Conn) (d : Bytes)
    (hc : dl.conn = some c) (hm : env.marshal (mkAckFrame l s) = some d) :
    (sendAck env dl l s).2.filter isAckWrite = [Action.ackWrite (mkAckFrame l s)] := by
  cases hw : env.writeErr <;> simp [sendAck, hm, hc, hw, isAckWrite]

theorem sendAck_filter_dispatch (env : Env) (dl : DL) (l : Nat) (s : String) :
    (sendAck env dl l s).2.filter isDispatchAct = [] := by
  cases hm : env.marshal (mkAckFrame l s) with
  | none => simp [sendAck, hm, isDispatchAct]
  | some d =>
    cases hc : dl.conn with
    | none => simp [sendAck, hm, hc]
    | some c =>
      cases hw : env.writeErr <;> simp [sendAck, hm, hc, hw, isDispatchAct]

theorem sendAck_write_fail_logged (env : Env) (dl : DL) (l : Nat) (s : String)
    (c : Conn) (d : Bytes) (w : GoErr)
    (hc : dl.conn = some c) (hm : env.marshal (mkAckFrame l s) = some d)
    (hw : env.writeErr = some w) :
    Action.log "发送心跳包失败" ∈ (sendAck env dl l s).2 := by
  simp [sendAck, hm, hc, hw]

theorem handleSingleMessage_living_mono (env : Env) (dl : DL) (m : Message)
    (h : dl.isLiving = false) :
    (handleSingleMessage env dl m).1.isLiving = false := by
  by_cases hm : m.method = "WebcastControlMessage"
  · cases hc : env.decodeControl m.payload with
    | none => simp [handleSingleMessage, hm, hc, h]
    | some cm =>
      by_cases h3 : cm.status = 3 <;>
        simp [handleSingleMessage, hm, hc, h3, h]
  · simp [handleSingleMessage, hm, h]

theorem handleSingleMessage_control3 (env : Env) (dl : DL) (m : Message)
    (hmeth : m.method = "WebcastControlMessage")
    (hctl : env.decodeControl m.payload = some { status := 3 }) :
    (handleSingleMessage env dl m).1.isLiving = false := by
  simp [handleSingleMessage, hmeth, hctl]

theorem handleSingleMessage_filter_ack (env : Env) (dl : DL) (m : Message) :
    (handleSingleMessage env dl m).2.filter isAckWrite = [] := by
  by_cases hm : m.method = "WebcastControlMessage"
  · cases hc : env.decodeControl m.payload with
    | none => simp [handleSingleMessage, hm, hc, isAckWrite]
    | some cm =>
      by_cases h3 : cm.status = 3 <;>
        simp [handleSingleMessage, hm, hc, h3, isAckWrite]
  · simp [handleSingleMessage, hm, isAckWrite]

theorem handleSingleMessage_filter_dispatch (env : Env) (dl : DL) (m : Message) :
    (handleSingleMessage env dl m).2.filter isDispatchAct = [Action.dispatch m] := by
  by_cases hm : m.method = "WebcastControlMessage"
  · cases hc : env.decodeControl m.payload with
    | none => simp [handleSingleMessage, hm, hc, isDispatchAct]
    | some cm =>
      by_cases h3 : cm.status = 3 <;>
        simp [handleSingleMessage, hm, hc, h3, isDispatchAct]
  · simp [handleSingleMessage, hm, isDispatchAct]

theorem foldMessages_living_mono (env : Env) (msgs : List Message) :
    ∀ dl : DL, dl.isLiving = false → (foldMessages env dl msgs).1.isLiving = false := by
  induction msgs with
  | nil => intro dl h; exact h
  | cons m ms ih =>
    intro dl h
    simp only [foldMessages]
    exact ih _ (handleSingleMessage_living_mono env dl m h)

theorem foldMessages_control3 (env : Env) (msgs : List Message) (m : Message)
    (hmeth : m.method = "WebcastControlMessage")
    (hctl : env.decodeControl m.payload = some { status := 3 }) :
    ∀ dl : DL, m ∈ msgs → (foldMessages env dl msgs).1.isLiving = false := by
  induction msgs with
  | nil => intro dl h; cases h
  | cons a ms ih =>
    intro dl h
    simp only [foldMessages]
    rcases List.mem_cons.mp h with rfl | hmem
    · exact foldMessages_living_mono env ms _
        (handleSingleMessage_control3 env dl m hmeth hctl)
    · exact ih _ hmem

theorem foldMessages_filter_ack (env : Env) (msgs : List Message) :
    ∀ dl : DL, (foldMessages env dl msgs).2.filter isAckWrite = [] := by
  induction msgs with
  | nil => intro dl; rfl
  | cons m ms ih =>
    intro dl
    simp only [foldMessages, List.filter_append]
    rw [handleSingleMessage_filter_ack, ih]
    rfl

theorem foldMessages_filter_dispatch (env : Env) (msgs : List Message) :
    ∀ dl : DL, (foldMessages env dl msgs).2.filter isDispatchAct
      = msgs.map Action.dispatch := by
  induction msgs with
  | nil => intro dl; rfl
  | cons m ms ih =>
    intro dl
    simp only [foldMessages, List.filter_append, List.map_cons]
    rw [handleSingleMessage_filter_dispatch, ih]
    rfl

theorem processMessages_not_living (env : Env) (dials : Nat → DialResult)
    (dl : DL) (events : List ReadEvent) (h : dl.isLiving = false) :
    processMessages env dials dl events = (dl, []) := by
  cases events with
  | nil => rfl
  | cons ev rest => simp [processMessages, h]

theorem processStep_readErr (env : Env) (dials : Nat → DialResult)
    (dl : DL) (e : GoErr) :
    processStep env dials dl (.readErr e)
      = ((handleReadError dials dl e).1,
         .log "读取消息失败" :: (handleReadError dials dl e).2.1,
         (handleReadError dials dl e).2.2) := rfl

theorem processMessages_cons_break (env : Env) (dials : Nat → DialResult)
    (dl : DL) (ev : ReadEvent)
    (hliv : dl.isLiving = true)
    (hcont : (processStep env dials dl ev).2.2 = false) :
    ∀ rest, processMessages env dials dl (ev :: rest)
      = ((processStep env dials dl ev).1, (processStep env dials dl ev).2.1) := by
  intro rest
  simp [processMessages, hliv, hcont]

theorem processMessages_cons_stop (env : Env) (dials : Nat → DialResult)
    (dl : DL) (ev : ReadEvent)
    (hliv : dl.isLiving = true)
    (hcont : (processStep env dials dl ev).2.2 = true)
    (hdead : (processStep env dials dl ev).1.isLiving = false) :
    ∀ rest, processMessages env dials dl (ev :: rest)
      = ((processStep env dials dl ev).1, (processStep env dials dl ev).2.1) := by
  intro rest
  simp [processMessages, hliv, hcont,
    processMessages_not_living env dials _ rest hdead]

theorem processMessages_cons_cont (env : Env) (dials : Nat → DialResult)
    (dl dl1 : DL) (ev : ReadEvent) (acts : List Action)
    (hliv : dl.isLiving = true)
    (hstep : processStep env dials dl ev = (dl1, acts, true)) :
    ∀ rest, processMessages env dials dl (ev :: rest)
      = ((processMessages env dials dl1 rest).1,
         acts ++ (processMessages env dials dl1 rest).2) := by
  intro rest
  simp [processMessages, hliv, hstep]

theorem processStep_msg_frame (env : Env) (dials : Nat → DialResult) (dl : DL)
    (data : Bytes) (pf : PushFrame)
    (hne : data ≠ [])
    (hpf : env.decodePushFrame data = some pf)
    (hmt : pf.payloadType = "msg")
    (hgz : hasGzipEncoding pf.headers = true) :
    processStep env dials dl (.frame binaryMessage data)
      = ((handleGzipMessage env dl pf).1, (handleGzipMessage env dl pf).2, true) := by
  simp [processStep, hne, hpf, hmt, hgz]

/-! ### Claim theorems -/

/-- C1: a received PushFrame with payloadType "msg" and the gzip header flag
set whose payload decompresses and decodes to a Response with needAck = true
makes the session emit exactly one ACK PushFrame, whose payload equals the
Response's internalExt bytes, whose logID equals the received frame's logID
and whose payloadType is "ack"; a failure to send the ACK is logged and does
not stop processing of the batch (every message of the batch is still
dispatched, in order, and the read loop continues). -/
theorem claim1_ack_exactly_once (env : Env) (dials : Nat → DialResult) (dl : DL)
    (data u d : Bytes) (pf : PushFrame) (resp : Response) (c : Conn)
    (hne : data ≠ [])
    (hconn : dl.conn = some c)
    (hpf : env.decodePushFrame data = some pf)
    (hmt : pf.payloadType = "msg")
    (hgz : hasGzipEncoding pf.headers = true)
    (hdec : env.decompress pf.payload = some u)
    (hresp : env.decodeResponse u = some resp)
    (hack : resp.needAck = true)
    (hmar : env.marshal (mkAckFrame pf.logID resp.internalExt) = some d) :
    ((processStep env dials dl (.frame binaryMessage data)).2.1.filter isAckWrite
        = [Action.ackWrite { logID := pf.logID, payloadType := "ack",
                             payload := strBytes resp.internalExt, headers := [] }]) ∧
    ((processStep env dials dl (.frame binaryMessage data)).2.1.filter isDispatchAct
        = resp.messages.map Action.dispatch) ∧
    (processStep env dials dl (.frame binaryMessage data)).2.2 = true ∧
    (∀ w, env.writeErr = some w →
        Action.log "发送心跳包失败"
          ∈ (processStep env dials dl (.frame binaryMessage data)).2.1) := by
  have hgm : handleGzipMessage env dl pf
      = ((foldMessages env dl resp.messages).1,
         (sendAck env dl pf.logID resp.internalExt).2
           ++ (foldMessages env dl resp.messages).2) := by
    simp [handleGzipMessage, hdec, hresp, hack, sendAck_fst]
  have hstep : processStep env dials dl (.frame binaryMessage data)
      = ((foldMessages env dl resp.messages).1,
         (sendAck env dl pf.logID resp.internalExt).2
           ++ (foldMessages env dl resp.messages).2,
         true) := by
    rw [processStep_msg_frame env dials dl data pf hne hpf hmt hgz, hgm]
  refine ⟨?_, ?_, ?_, ?_⟩
  · rw [hstep]
    simp only [List.filter_append]
    rw [sendAck_filter_ack env dl _ _ c d hconn hmar, foldMessages_filter_ack]
    simp [mkAckFrame]
  · rw [hstep]
    simp only [List.filter_append]
    rw [sendAck_filter_dispatch, foldMessages_filter_dispatch]
    rfl
  · rw [hstep]
  · intro w hw
    rw [hstep]
    simp only [List.mem_append]
    exact Or.inl (sendAck_write_fail_logged env dl _ _ c d w hconn hmar hw)

/-- Witness for C1 at a concrete frame, response and failing write. -/
theorem claim1_witness :
    (processStep envAck dialsFail dlLive (.frame binaryMessage [7])).2.1.filter isAckWrite
      = [Action.ackWrite { logID := 42, payloadType := "ack",
                           payload := strBytes "XYZ", headers := [] }] :=
  (claim1_ack_exactly_once envAck dialsFail dlLive [7] [9] [1] pfMsg respAck ⟨1⟩
      (by decide) rfl rfl rfl rfl rfl rfl rfl rfl).1

/-- C7: a frame whose outer PushFrame decode, gzip decompression, or inner
Response decode fails is logged and skipped: session state is unchanged, the
actions of that iteration are exactly one log line (so no message dispatch
and no ACK), and the read loop continues to the next frame. -/
theorem claim7_decode_failure_skips (env : Env) (dials : Nat → DialResult)
    (dl : DL) (data : Bytes) (rest : List ReadEvent)
    (hliv : dl.isLiving = true) (hne : data ≠ [])
    (hfail : decodeFailure env data) :
    (processStep env dials dl (.frame binaryMessage data)).1 = dl ∧
    (processStep env dials dl (.frame binaryMessage data)).2.2 = true ∧
    (processStep env dials dl (.frame binaryMessage data)).2.1.length = 1 ∧
    ((processStep env dials dl (.frame binaryMessage data)).2.1.filter isLogAct
      = (processStep env dials dl (.frame binaryMessage data)).2.1) ∧
    processMessages env dials dl (.frame binaryMessage data :: rest)
      = ((processMessages env dials dl rest).1,
         (processStep env dials dl (.frame binaryMessage data)).2.1
           ++ (processMessages env dials dl rest).2) := by
  have hstep : ∃ s, processStep env dials dl (.frame binaryMessage data)
      = (dl, [Action.log s], true) := by
    rcases hfail with h | ⟨pf, hpf, hmt, hgz, h | ⟨u, hu, hr⟩⟩
    · exact ⟨"解析PushFrame失败", by simp [processStep, hne, h]⟩
    · refine ⟨"GZIP解压失败", ?_⟩
      rw [processStep_msg_frame env dials dl data pf hne hpf hmt hgz]
      simp [handleGzipMessage, h]
    · refine ⟨"解析Response失败", ?_⟩
      rw [processStep_msg_frame env dials dl data pf hne hpf hmt hgz]
      simp [handleGzipMessage, hu, hr]
  obtain ⟨s, hstep⟩ := hstep
  refine ⟨by rw [hstep], by rw [hstep], by rw [hstep]; rfl, by rw [hstep]; rfl, ?_⟩
  rw [processMessages_cons_cont env dials dl dl (.frame binaryMessage data)
      [Action.log s] hliv hstep rest, hstep]

/-- Witness for C7 at a concrete frame whose outer decode fails. -/
theorem claim7_witness :
    (processStep envFailAll dialsFail dlLive (.frame binaryMessage [7])).1 = dlLive :=
  (claim7_decode_failure_skips envFailAll dialsFail dlLive [7] [] rfl (by decide)
      (Or.inl rfl)).1

/-- C8: a dispatched message with method "WebcastControlMessage" whose
payload decodes to a control message with status 3 sets the session's
liveness flag to false, and the read loop exits at its next liveness check,
for an arbitrary remainder of the event stream — in particular without
requiring a transport error. -/
theorem claim8_control_status3_stops (env : Env) (dials : Nat → DialResult)
    (dl : DL) (data u : Bytes) (pf : PushFrame) (resp : Response) (m : Message)
    (hliv : dl.isLiving = true) (hne : data ≠ [])
    (hpf : env.decodePushFrame data = some pf)
    (hmt : pf.payloadType = "msg")
    (hgz : hasGzipEncoding pf.headers = true)
    (hdec : env.decompress pf.payload = some u)
    (hresp : env.decodeResponse u = some resp)
    (hm : m ∈ resp.messages)
    (hmeth : m.method = "WebcastControlMessage")
    (hctl : env.decodeControl m.payload = some { status := 3 }) :
    (processStep env dials dl (.frame binaryMessage data)).1.isLiving = false ∧
    ∀ rest, processMessages env dials dl (.frame binaryMessage data :: rest)
      = ((processStep env dials dl (.frame binaryMessage data)).1,
         (processStep env dials dl (.frame binaryMessage data)).2.1) := by
  have h1 : (handleGzipMessage env dl pf).1 = (foldMessages env dl resp.messages).1 := by
    cases hNA : resp.needAck <;>
      simp [handleGzipMessage, hdec, hresp, hNA, sendAck_fst]
  have hstep := processStep_msg_frame env dials dl data pf hne hpf hmt hgz
  have hdead : (processStep env dials dl (.frame binaryMessage data)).1.isLiving
      = false := by
    rw [hstep]
    show (handleGzipMessage env dl pf).1.isLiving = false
    rw [h1]
    exact foldMessages_control3 env resp.messages m hmeth hctl dl hm
  have hcont : (processStep env dials dl (.frame binaryMessage data)).2.2 = true := by
    rw [hstep]
  exact ⟨hdead, fun rest =>
    processMessages_cons_stop env dials dl (.frame binaryMessage data)
      hliv hcont hdead rest⟩

/-- Witness for C8 at a concrete room-closed control message. -/
theorem claim8_witness :
    (processStep envCtl dialsFail dlLive (.frame binaryMessage [7])).1.isLiving
      = false :=
  (claim8_control_status3_stops envCtl dialsFail dlLive [7] [9] pfMsg respCtl ctlMsg
      rfl (by decide) rfl rfl rfl rfl rfl (List.mem_singleton.mpr rfl) rfl rfl).1

/-- C2 (code bug): the claim says a failed connection attempt with close code
1008 (policy violation) or 1007 (invalid frame payload) is classified
unrecoverable and aborts all further retries.  In the code the attempt is
indeed wrapped with `retry.Unrecoverable` (third conjunct), but the custom
`RetryIf` tests `websocket.IsCloseError` on the wrapper value — a direct type
assertion that never sees the underlying CloseError — so it still says retry
(fourth conjunct); consequently a reconnect cycle whose every dial fails with
close code 1008 performs all five dial attempts (first conjunct) before
reporting failure (second conjunct), instead of aborting after the first. -/
theorem claim2_policy_violation_still_retried :
    ((reconnect (fun _ => DialResult.fail (.closeErr 1008 "policy violation"))
        defaultMaxRetries { isLiving := true, manualClose := false, conn := none }).2.1.filter
          isDialAct).length = 5 ∧
    (reconnect (fun _ => DialResult.fail (.closeErr 1008 "policy violation"))
        defaultMaxRetries { isLiving := true, manualClose := false, conn := none }).2.2
      = false ∧
    wrapRetryable (.closeErr 1008 "policy violation")
      = .unrecoverable (.closeErr 1008 "policy violation") ∧
    retryIfGo (wrapRetryable (.closeErr 1008 "policy violation")) = true :=
  ⟨rfl, rfl, rfl, rfl⟩

/-- C3 counterexample: a reconnect cycle already in flight does NOT observe
`manualClose` at its next decision point.  With the flag trace that is false
at the entry check (observation point 0) and true from observation point 1 on
— i.e. the flag is set during the cycle, before the first dial — the cycle
still completes a new connection, contradicting the claim that it aborts
rather than completing one. -/
theorem claim3_counterexample :
    ((fun t => decide (1 ≤ t)) 0 = false) ∧
    ((fun t => decide (1 ≤ t)) 1 = true) ∧
    (reconnectTraced (fun t => decide (1 ≤ t))
        (fun _ => DialResult.ok ⟨7⟩) defaultMaxRetries
        { isLiving := true, manualClose := false, conn := none }).1.conn
      = some ⟨7⟩ ∧
    (reconnectTraced (fun t => decide (1 ≤ t))
        (fun _ => DialResult.ok ⟨7⟩) defaultMaxRetries
        { isLiving := true, manualClose := false, conn := none }).2.2 = true :=
  ⟨rfl, rfl, rfl, rfl⟩

/-- C3 (amended): `manualClose` is read only at the entry check of
`handleReadError` and of `reconnect`.  Every call that observes the flag set
at entry starts no connection attempt and signals the read loop to stop, and
a cycle whose entry observation sees the flag aborts immediately; but a cycle
already past its entry check never re-reads the flag and may complete a new
connection even if the flag is set during the cycle. -/
theorem claim3_manual_close_entry_only (dials : Nat → DialResult)
    (attempts : Nat) (dl : DL) (err : GoErr) (σ : Nat → Bool)
    (h : dl.manualClose = true) (hσ : σ 0 = true) :
    handleReadError dials dl err
      = (dl, [Action.log "连接被手动关闭，不进行重连"], false) ∧
    reconnect dials attempts dl
      = (dl, [Action.log "连接被手动关闭，不进行重连"], false) ∧
    reconnectTraced σ dials attempts dl
      = ({ dl with manualClose := true },
         [Action.log "连接被手动关闭，不进行重连"], false) := by
  refine ⟨?_, ?_, ?_⟩
  · simp [handleReadError, h]
  · simp [reconnect, h]
  · simp [reconnectTraced, reconnect, hσ]

/-- Witness for C3 (amended) at a concrete manually-closed session. -/
theorem claim3_witness :
    reconnect dialsFail defaultMaxRetries dlClosed
      = (dlClosed, [Action.log "连接被手动关闭，不进行重连"], false) :=
  (claim3_manual_close_entry_only dialsFail defaultMaxRetries dlClosed
      (.otherErr "x") (fun _ => true) rfl rfl).2.1

/-- C4: a read error that is a clean peer-initiated closure with close code
1000 (normal closure) triggers no reconnect attempt (no dial action in the
trace), leaves the session state unchanged, makes `handleReadError` return
false, and the read loop stops at that event. -/
theorem claim4_normal_closure_stops (env : Env) (dials : Nat → DialResult)
    (dl : DL) (txt : String) (rest : List ReadEvent)
    (hliv : dl.isLiving = true) :
    (handleReadError dials dl (.closeErr 1000 txt)).2.2 = false ∧
    (handleReadError dials dl (.closeErr 1000 txt)).1 = dl ∧
    (handleReadError dials dl (.closeErr 1000 txt)).2.1.filter isDialAct = [] ∧
    processMessages env dials dl (.readErr (.closeErr 1000 txt) :: rest)
      = (dl, Action.log "读取消息失败"
              :: (handleReadError dials dl (.closeErr 1000 txt)).2.1) := by
  have hh : handleReadError dials dl (GoErr.closeErr 1000 txt)
      = (dl, [Action.log (if dl.manualClose then "连接被手动关闭，不进行重连"
                          else "正常关闭")], false) := by
    by_cases h : dl.manualClose <;>
      simp [handleReadError, h, isUnexpectedCloseError, List.contains]
  have hcont : (processStep env dials dl (.readErr (.closeErr 1000 txt))).2.2
      = false := by
    rw [processStep_readErr, hh]
  refine ⟨by rw [hh], by rw [hh], by rw [hh]; rfl, ?_⟩
  rw [processMessages_cons_break env dials dl _ hliv hcont rest,
    processStep_readErr, hh]

/-- Witness for C4 at a concrete close-code-1000 read error. -/
theorem claim4_witness :
    (handleReadError dialsFail dlLive (.closeErr 1000 "bye")).2.2 = false :=
  (claim4_normal_closure_stops envFailAll dialsFail dlLive "bye" [] rfl).1

/-- C5 (code bug): the claim says a failed connection attempt makes
`startWebSocket` return a wrapped error including any peer-supplied status —
including dial failures where no HTTP-like response was received — without
crashing and without storing a connection handle.  The code formats
`resp.StatusCode` unconditionally, so a dial failure with a nil response
(e.g. the TCP connection is refused before any handshake response) panics on
the nil dereference instead of returning an error; the session state is the
one passed in (no handle stored), but the call crashes. -/
theorem claim5_nil_response_dial_panics :
    startWebSocket (.fail (.otherErr "dial tcp: connection refused") none)
        { isLiving := true, manualClose := false, conn := none }
      = ({ isLiving := true, manualClose := false, conn := none }, [],
         RunResult.panicked) := rfl

/-- C6: only discovery and dial failures during the initial start are
returned to the caller as explicit errors.  For `Start2` (the error-returning
entry point): every returned error comes from the initialize step or is the
wrapped dial error of `startWebSocket` (first conjunct), and once the dial
succeeds and the read loop is entered the call returns nil whatever the loop
encounters — read errors, decode errors and ack-send errors included (second
conjunct).  `Start` has no return value at all: its outcome is never an
error value (third conjunct). -/
theorem claim6_error_propagation (initErr : Option GoErr) (outcome : DialOutcome)
    (env : Env) (dials : Nat → DialResult) (dl : DL) (events : List ReadEvent)
    (liveCheck : Bool) (tErr rErr iErr : Option GoErr) :
    (∀ e, (Start2 initErr outcome env dials dl events).2.2 = RunResult.err e →
        initErr = some e ∨
        ∃ e0 code, outcome = DialOutcome.fail e0 (some code) ∧
          e = GoErr.wrapped ("连接失败, 状态码 " ++ toString code) e0) ∧
    (initErr = none → ∀ c sc, outcome = DialOutcome.ok c sc →
        (Start2 initErr outcome env dials dl events).2.2 = RunResult.ok) ∧
    (∀ e, (Start liveCheck tErr rErr iErr outcome env dials dl events).2.2
        ≠ RunResult.err e) := by
  refine ⟨?_, ?_, ?_⟩
  · intro e he
    cases initErr with
    | some e0 =>
      have h : RunResult.err e0 = RunResult.err e := he
      cases h
      exact Or.inl rfl
    | none =>
      cases outcome with
      | ok c sc => simp [Start2, startWebSocket] at he
      | fail e0 rs =>
        cases rs with
        | some code =>
          have h : RunResult.err
              (GoErr.wrapped ("连接失败, 状态码 " ++ toString code) e0)
              = RunResult.err e := he
          cases h
          exact Or.inr ⟨e0, code, rfl, rfl⟩
        | none => simp [Start2, startWebSocket] at he
  · intro h0 c sc hout
    subst h0
    subst hout
    simp [Start2, startWebSocket]
  · intro e he
    cases liveCheck with
    | false => simp [Start] at he
    | true =>
      cases tErr with
      | some t => simp [Start] at he
      | none =>
        cases rErr with
        | some t => simp [Start] at he
        | none =>
          cases iErr with
          | some t => simp [Start] at he
          | none =>
            cases outcome with
            | ok c sc => simp [Start, startWebSocket] at he
            | fail e0 rs =>
              cases rs with
              | some code => simp [Start, startWebSocket] at he
              | none => simp [Start, startWebSocket] at he

/-- Witness for C6: a read-loop transport error is not returned from Start2. -/
theorem claim6_witness :
    (Start2 none (DialOutcome.ok ⟨1⟩ 101) envFailAll dialsFail dlLive
        [ReadEvent.readErr (.otherErr "network")]).2.2 = RunResult.ok :=
  (claim6_error_propagation none (DialOutcome.ok ⟨1⟩ 101) envFailAll dialsFail
      dlLive [ReadEvent.readErr (.otherErr "network")] true none none none).2.1
    rfl ⟨1⟩ 101 rfl

/-- C9: Close is idempotent.  The first call sets liveness to false and
manualClose to true and clears the transport handle (closing it when it was
present); a second call in sequence observes the cleared handle and is a
no-op: it performs no transport-close action (its trace is only the
already-closed log line) and leaves the state exactly as the first call left
it. -/
theorem claim9_close_idempotent (dl : DL) :
    (Close dl).1.isLiving = false ∧
    (Close dl).1.manualClose = true ∧
    (Close dl).1.conn = none ∧
    Close (Close dl).1 = ((Close dl).1, [Action.log "连接已关闭或未初始化"]) := by
  cases hc : dl.conn <;> simp [Close, hc]

/-- C10: sendAck called while the connection handle is nil, or when
marshalling the ACK frame fails, returns normally (the embedding is a total
function with no panic outcome), sends nothing (no ack write in its trace),
and leaves all session state unchanged. -/
theorem claim10_sendack_degraded (env : Env) (dl : DL) (logID : Nat) (ext : String)
    (h : dl.conn = none ∨ env.marshal (mkAckFrame logID ext) = none) :
    (sendAck env dl logID ext).1 = dl ∧
    (sendAck env dl logID ext).2.filter isAckWrite = [] := by
  rcases h with hc | hm
  · cases hm2 : env.marshal (mkAckFrame logID ext) with
    | none => exact ⟨sendAck_fst env dl logID ext, by simp [sendAck, hm2, isAckWrite]⟩
    | some d => exact ⟨sendAck_fst env dl logID ext, by simp [sendAck, hm2, hc]⟩
  · exact ⟨sendAck_fst env dl logID ext, by simp [sendAck, hm, isAckWrite]⟩

/-- Witness for C10 at a concrete session with a cleared handle. -/
theorem claim10_witness :
    (sendAck envAck dlClosed 5 "tok").1 = dlClosed :=
  (claim10_sendack_degraded envAck dlClosed 5 "tok" (Or.inl rfl)).1

end DouyinLive
